import Mathlib

/-
  Verification of the rafter common Asset handler.

  Shallow embedding of the Go file internal/handler/asset (package asset):
  the Do dispatch, its predicates, and the delete / ready / pending paths.
  Collaborators (bucket probe, object store, loader, webhooks) are modelled
  as a deterministic oracle environment; every collaborator invocation and
  every recorded event is logged into an effect trace so that statements
  about invocation order and emitted events can be proved.

  Time is modelled as Nat; time.Time.Before is < and time.Time.After is >.
  Go errors are modelled as Option String (none = nil); errors.Wrap becomes
  string prefixing with the context message.
-/

namespace Rafter

/-- Phase of an Asset status: v1beta1.AssetPending, AssetReady, AssetFailed. -/
inductive AssetPhase where
  | pending
  | ready
  | failed
deriving DecidableEq, Repr

/-- Closed reason enum of v1beta1.AssetReason. -/
inductive AssetReason where
  | scheduled
  | bucketNotReady
  | bucketError
  | pulled
  | pullingFailed
  | mutated
  | mutationError
  | mutationFailed
  | validated
  | validationError
  | validationFailed
  | metadataExtracted
  | metadataExtractionFailed
  | uploaded
  | uploadFailed
  | cleaned
  | cleanupError
  | missingContent
  | remoteContentVerificationError
deriving DecidableEq, Repr

/-- v1beta1.AssetFile: a stored file name with an optional opaque metadata
blob (runtime.RawExtension raw bytes, modelled as a String). -/
structure AssetFile where
  name : String
  metadata : Option String
deriving DecidableEq, Repr

/-- v1beta1.AssetStatusRef: public base URL plus the stored file list. -/
structure AssetRef where
  baseURL : String
  files : List AssetFile
deriving DecidableEq, Repr

/-- v1beta1.CommonAssetStatus. The message field holds the format arguments
passed to getStatus; the Go code renders them through the reason message
template, which lives outside the embedded core and carries no logic. -/
structure CommonAssetStatus where
  lastHeartbeatTime : Nat
  observedGeneration : Int
  phase : AssetPhase
  reason : AssetReason
  message : List String
  assetRef : AssetRef
deriving DecidableEq, Repr

/-- v1beta1.AssetSource. Webhook service lists are opaque endpoint names. -/
structure AssetSource where
  url : String
  mode : String
  filter : String
  mutationWebhookService : List String
  validationWebhookService : List String
  metadataWebhookService : List String
deriving DecidableEq, Repr

/-- v1beta1.CommonAssetSpec: bucket reference name plus the source. -/
structure CommonAssetSpec where
  bucketRefName : String
  source : AssetSource
deriving DecidableEq, Repr

/-- The MetaAccessor view of the reconciled instance: GetNamespace (ns),
GetName (name), GetGeneration, GetDeletionTimestamp (none = zero time). -/
structure MetaAccessor where
  ns : String
  name : String
  generation : Int
  deletionTimestamp : Option Nat
deriving DecidableEq, Repr

/-- v1beta1.CommonBucketStatus as consumed by the handler. -/
structure CommonBucketStatus where
  remoteName : String
  url : String
deriving DecidableEq, Repr

/-- assethook.Result: success flag plus messages. -/
structure HookResult where
  success : Bool
  messages : String
deriving DecidableEq, Repr

/-- assethook.File: a file name with optional raw JSON metadata
( *json.RawMessage, none = nil pointer). -/
structure AssethookFile where
  name : String
  metadata : Option String
deriving DecidableEq, Repr

/-- One observable action of the handler: a collaborator invocation or a
recorded event (etype is the Go event type string, Normal or Warning). -/
inductive Effect where
  | findBucket (ns bucketName : String)
  | listObjects (bucket pfx : String)
  | deleteObjects (bucket pfx : String)
  | containsAllObjects (bucket pfx : String) (names : List String)
  | putObjects (bucket pfx basePath : String) (names : List String)
  | loaderLoad (url name mode filterExpr : String)
  | loaderClean (basePath : String)
  | mutateCall (basePath : String) (names services : List String)
  | validateCall (basePath : String) (names services : List String)
  | extractCall (basePath : String) (names services : List String)
  | event (etype : String) (reason : AssetReason)
deriving DecidableEq, Repr

/-- Deterministic oracle environment standing for the injected collaborators
of assetHandler (findBucketStatus, store, loader, webhooks) together with the
relistInterval configuration. loaderLoad returns (basePath, filenames, err);
the basePath component is meaningful even when err is set, matching the Go
call site which defers Clean(basePath) unconditionally. Loader.Clean has no
return value and is tracked purely as an Effect. -/
structure Env where
  findBucketStatus : String → String → Except String (CommonBucketStatus × Bool)
  listObjects : String → String → Except String (List String)
  deleteObjects : String → String → Except String Unit
  containsAllObjects : String → String → List String → Except String Bool
  putObjects : String → String → String → List String → Except String Unit
  loaderLoad : String → String → String → String → String × List String × Option String
  mutate : String → List String → List String → Except String HookResult
  validate : String → List String → List String → Except String HookResult
  extract : String → List String → List String → Except String (List AssethookFile)
  relistInterval : Nat

/-- errors.Wrap: prefix the error with a context message. -/
def wrap (ctx e : String) : String := ctx ++ ": " ++ e

/-- getStatus: builds the fresh status written back each cycle.
LastHeartbeatTime is v1.Now(), modelled as the now of the current call. -/
def getStatus (object : MetaAccessor) (now : Nat) (phase : AssetPhase)
    (reason : AssetReason) (args : List String) : CommonAssetStatus :=
  { lastHeartbeatTime := now
    observedGeneration := object.generation
    phase := phase
    reason := reason
    message := args
    assetRef := { baseURL := "", files := [] } }

/-- getReadyStatus: getStatus for phase Ready with assetRef filled in. -/
def getReadyStatus (object : MetaAccessor) (now : Nat) (baseUrl : String)
    (files : List AssetFile) (reason : AssetReason) (args : List String) :
    CommonAssetStatus :=
  let status := getStatus object now AssetPhase.ready reason args
  { status with assetRef := { baseURL := baseUrl, files := files } }

/-- getBaseUrl: fmt.Sprintf of bucket url, slash, asset name. -/
def getBaseUrl (bucketUrl assetName : String) : String :=
  bucketUrl ++ "/" ++ assetName

/-- extractNames: the name of each status file, in order. -/
def extractNames (files : List AssetFile) : List String :=
  files.map (fun file => file.name)

/-- populateFiles: one AssetFile per loader filename, no metadata. -/
def populateFiles (filenames : List String) : List AssetFile :=
  filenames.map (fun filename => { name := filename, metadata := none })

/-- mergeMetadata: attach to each file the metadata of the last extractor
entry with a matching name (the Go code loads entries into a map, so later
entries overwrite earlier ones); a nil stored pointer or a missing entry both
yield no metadata, matching toRawExtension on a nil RawMessage. -/
def mergeMetadata (files : List AssetFile) (metadatas : List AssethookFile) :
    List AssetFile :=
  files.map (fun file =>
    { name := file.name
      metadata :=
        (metadatas.reverse.find? (fun m => m.name == file.name)).bind
          (fun m => m.metadata) })

/-- isOnDelete: the deletion timestamp is set. -/
def isOnDelete (object : MetaAccessor) : Prop :=
  object.deletionTimestamp ≠ none

instance (object : MetaAccessor) : Decidable (isOnDelete object) := by
  unfold isOnDelete; infer_instance

/-- isOnAddOrUpdate: the observed generation differs from the instance
generation. -/
def isOnAddOrUpdate (object : MetaAccessor) (status : CommonAssetStatus) : Prop :=
  status.observedGeneration ≠ object.generation

instance (object : MetaAccessor) (status : CommonAssetStatus) :
    Decidable (isOnAddOrUpdate object status) := by
  unfold isOnAddOrUpdate; infer_instance

/-- isOnReady: phase Ready and now strictly after
lastHeartbeatTime + relistInterval. -/
def isOnReady (env : Env) (status : CommonAssetStatus) (now : Nat) : Prop :=
  status.phase = AssetPhase.ready ∧
    status.lastHeartbeatTime + env.relistInterval < now

instance (env : Env) (status : CommonAssetStatus) (now : Nat) :
    Decidable (isOnReady env status now) := by
  unfold isOnReady; infer_instance

/-- isOnPending: phase Pending, except when backed off on BucketNotReady
with now strictly before lastHeartbeatTime + relistInterval. -/
def isOnPending (env : Env) (status : CommonAssetStatus) (now : Nat) : Prop :=
  status.phase = AssetPhase.pending ∧
    ¬(status.reason = AssetReason.bucketNotReady ∧
      now < status.lastHeartbeatTime + env.relistInterval)

instance (env : Env) (status : CommonAssetStatus) (now : Nat) :
    Decidable (isOnPending env status now) := by
  unfold isOnPending; infer_instance

/-- isOnFailed: phase Failed with a reason that is not one of the two sticky
markers ValidationFailed and MutationFailed. -/
def isOnFailed (status : CommonAssetStatus) : Prop :=
  status.phase = AssetPhase.failed ∧
    status.reason ≠ AssetReason.validationFailed ∧
    status.reason ≠ AssetReason.mutationFailed

instance (status : CommonAssetStatus) : Decidable (isOnFailed status) := by
  unfold isOnFailed; infer_instance

/-- deleteRemoteContent: list objects under the asset-name prefix; nothing to
do when empty; otherwise bulk delete and record a Cleaned event. Returns the
(wrapped) error, if any, together with the effect trace. -/
def deleteRemoteContent (env : Env) (object : MetaAccessor)
    (bucketName : String) : Option String × List Effect :=
  let pfx := object.name
  match env.listObjects bucketName pfx with
  | Except.error e =>
      (some (wrap "while listing files in bucket" e),
       [Effect.listObjects bucketName pfx])
  | Except.ok files =>
      if files.length = 0 then
        (none, [Effect.listObjects bucketName pfx])
      else
        match env.deleteObjects bucketName pfx with
        | Except.error e =>
            (some (wrap "while deleting asset content" e),
             [Effect.listObjects bucketName pfx,
              Effect.deleteObjects bucketName pfx])
        | Except.ok _ =>
            (none,
             [Effect.listObjects bucketName pfx,
              Effect.deleteObjects bucketName pfx,
              Effect.event "Normal" AssetReason.cleaned])

/-- onDelete: probe the bucket; on probe error return the wrapped error; when
the bucket is not ready there is nothing to delete; otherwise delete the
remote content and return its error, if any. Never produces a status. -/
def onDelete (env : Env) (object : MetaAccessor) (spec : CommonAssetSpec) :
    Option CommonAssetStatus × Option String × List Effect :=
  match env.findBucketStatus object.ns spec.bucketRefName with
  | Except.error e =>
      (none, some (wrap "while reading bucket status" e),
       [Effect.findBucket object.ns spec.bucketRefName])
  | Except.ok (bucketStatus, isReady) =>
      if !isReady then
        (none, none, [Effect.findBucket object.ns spec.bucketRefName])
      else
        let cleanup := deleteRemoteContent env object bucketStatus.remoteName
        (none, cleanup.1,
         Effect.findBucket object.ns spec.bucketRefName :: cleanup.2)

/-- onReady: re-verification of a Ready asset. Probe the bucket, then ask the
store whether all recorded file names are still present; refresh the Ready
status (same baseURL and files) when they are. -/
def onReady (env : Env) (object : MetaAccessor) (spec : CommonAssetSpec)
    (status : CommonAssetStatus) (now : Nat) :
    Option CommonAssetStatus × Option String × List Effect :=
  match env.findBucketStatus object.ns spec.bucketRefName with
  | Except.error e =>
      (some (getStatus object now AssetPhase.failed AssetReason.bucketError [e]),
       some e,
       [Effect.findBucket object.ns spec.bucketRefName,
        Effect.event "Warning" AssetReason.bucketError])
  | Except.ok (bucketStatus, isReady) =>
      if !isReady then
        (some (getStatus object now AssetPhase.pending AssetReason.bucketNotReady []),
         none,
         [Effect.findBucket object.ns spec.bucketRefName,
          Effect.event "Warning" AssetReason.bucketNotReady])
      else
        match env.containsAllObjects bucketStatus.remoteName object.name
            (extractNames status.assetRef.files) with
        | Except.error e =>
            (some (getStatus object now AssetPhase.failed
                AssetReason.remoteContentVerificationError [e]),
             some e,
             [Effect.findBucket object.ns spec.bucketRefName,
              Effect.containsAllObjects bucketStatus.remoteName object.name
                (extractNames status.assetRef.files),
              Effect.event "Warning" AssetReason.remoteContentVerificationError])
        | Except.ok allPresent =>
            if !allPresent then
              (some (getStatus object now AssetPhase.failed
                  AssetReason.missingContent []),
               none,
               [Effect.findBucket object.ns spec.bucketRefName,
                Effect.containsAllObjects bucketStatus.remoteName object.name
                  (extractNames status.assetRef.files),
                Effect.event "Warning" AssetReason.missingContent])
            else
              (some (getReadyStatus object now status.assetRef.baseURL
                  status.assetRef.files AssetReason.uploaded []),
               none,
               [Effect.findBucket object.ns spec.bucketRefName,
                Effect.containsAllObjects bucketStatus.remoteName object.name
                  (extractNames status.assetRef.files)])

/-- Mutation stage of the pending pipeline. Skipped when no mutation webhook
is configured. Returns an early (status, error) result, or none to continue,
plus the effect trace. Note the Go code records the transport-error Warning
event with reason AssetMutationFailed while writing status reason
AssetMutationError. -/
def mutationStage (env : Env) (object : MetaAccessor) (spec : CommonAssetSpec)
    (basePath : String) (filenames : List String) (now : Nat) :
    Option (CommonAssetStatus × Option String) × List Effect :=
  if 0 < spec.source.mutationWebhookService.length then
    match env.mutate basePath filenames spec.source.mutationWebhookService with
    | Except.error e =>
        (some (getStatus object now AssetPhase.failed AssetReason.mutationError [e],
           some e),
         [Effect.mutateCall basePath filenames spec.source.mutationWebhookService,
          Effect.event "Warning" AssetReason.mutationFailed])
    | Except.ok result =>
        if !result.success then
          (some (getStatus object now AssetPhase.failed
              AssetReason.mutationFailed [result.messages], none),
           [Effect.mutateCall basePath filenames spec.source.mutationWebhookService,
            Effect.event "Warning" AssetReason.mutationFailed])
        else
          (none,
           [Effect.mutateCall basePath filenames spec.source.mutationWebhookService,
            Effect.event "Normal" AssetReason.mutated])
  else (none, [])

/-- Validation stage of the pending pipeline, same shape as the mutation
stage: transport error gives ValidationError (with the error returned),
an unsuccessful result gives ValidationFailed with a nil error. -/
def validationStage (env : Env) (object : MetaAccessor) (spec : CommonAssetSpec)
    (basePath : String) (filenames : List String) (now : Nat) :
    Option (CommonAssetStatus × Option String) × List Effect :=
  if 0 < spec.source.validationWebhookService.length then
    match env.validate basePath filenames spec.source.validationWebhookService with
    | Except.error e =>
        (some (getStatus object now AssetPhase.failed AssetReason.validationError [e],
           some e),
         [Effect.validateCall basePath filenames spec.source.validationWebhookService,
          Effect.event "Warning" AssetReason.validationError])
    | Except.ok result =>
        if !result.success then
          (some (getStatus object now AssetPhase.failed
              AssetReason.validationFailed [result.messages], none),
           [Effect.validateCall basePath filenames spec.source.validationWebhookService,
            Effect.event "Warning" AssetReason.validationFailed])
        else
          (none,
           [Effect.validateCall basePath filenames spec.source.validationWebhookService,
            Effect.event "Normal" AssetReason.validated])
  else (none, [])

/-- Metadata stage of the pending pipeline: optionally extract per-file
metadata and merge it into the populated file list. Returns an early result
or none to continue, the (possibly merged) files, and the trace. -/
def metadataStage (env : Env) (object : MetaAccessor) (spec : CommonAssetSpec)
    (basePath : String) (filenames : List String) (now : Nat)
    (files : List AssetFile) :
    Option (CommonAssetStatus × Option String) × List AssetFile × List Effect :=
  if 0 < spec.source.metadataWebhookService.length then
    match env.extract basePath filenames spec.source.metadataWebhookService with
    | Except.error e =>
        (some (getStatus object now AssetPhase.failed
            AssetReason.metadataExtractionFailed [e], some e),
         files,
         [Effect.extractCall basePath filenames spec.source.metadataWebhookService,
          Effect.event "Warning" AssetReason.metadataExtractionFailed])
    | Except.ok result =>
        (none, mergeMetadata files result,
         [Effect.extractCall basePath filenames spec.source.metadataWebhookService,
          Effect.event "Normal" AssetReason.metadataExtracted])
  else (none, files, [])

/-- Stages 4 to 9 of the pending pipeline, entered after a successful load:
mutation, validation, populate files, metadata extraction, upload, and the
final Ready status with baseURL and the assembled files. -/
def onPendingAfterLoad (env : Env) (object : MetaAccessor)
    (spec : CommonAssetSpec) (now : Nat) (bucketStatus : CommonBucketStatus)
    (basePath : String) (filenames : List String) :
    Option CommonAssetStatus × Option String × List Effect :=
  let mutR := mutationStage env object spec basePath filenames now
  match mutR.1 with
  | some r => (some r.1, r.2, mutR.2)
  | none =>
    let valR := validationStage env object spec basePath filenames now
    match valR.1 with
    | some r => (some r.1, r.2, mutR.2 ++ valR.2)
    | none =>
      let files := populateFiles filenames
      let metaR := metadataStage env object spec basePath filenames now files
      match metaR.1 with
      | some r => (some r.1, r.2, mutR.2 ++ valR.2 ++ metaR.2.2)
      | none =>
        match env.putObjects bucketStatus.remoteName object.name basePath filenames with
        | Except.error e =>
            (some (getStatus object now AssetPhase.failed
                AssetReason.uploadFailed [e]),
             some e,
             mutR.2 ++ valR.2 ++ metaR.2.2 ++
               [Effect.putObjects bucketStatus.remoteName object.name basePath filenames,
                Effect.event "Warning" AssetReason.uploadFailed])
        | Except.ok _ =>
            (some (getReadyStatus object now
                (getBaseUrl bucketStatus.url object.name) metaR.2.1
                AssetReason.uploaded []),
             none,
             mutR.2 ++ valR.2 ++ metaR.2.2 ++
               [Effect.putObjects bucketStatus.remoteName object.name basePath filenames,
                Effect.event "Normal" AssetReason.uploaded])

/-- onPending: the full pending pipeline. Bucket probe, remote cleanup, load
(with an unconditional deferred Loader.Clean on the loaded basePath, running
at every exit after the Load call), then the post-load stages. -/
def onPending (env : Env) (object : MetaAccessor) (spec : CommonAssetSpec)
    (status : CommonAssetStatus) (now : Nat) :
    Option CommonAssetStatus × Option String × List Effect :=
  match env.findBucketStatus object.ns spec.bucketRefName with
  | Except.error e =>
      (some (getStatus object now AssetPhase.failed AssetReason.bucketError [e]),
       some e,
       [Effect.findBucket object.ns spec.bucketRefName,
        Effect.event "Warning" AssetReason.bucketError])
  | Except.ok (bucketStatus, isReady) =>
      if !isReady then
        (some (getStatus object now AssetPhase.pending AssetReason.bucketNotReady []),
         none,
         [Effect.findBucket object.ns spec.bucketRefName,
          Effect.event "Warning" AssetReason.bucketNotReady])
      else
        let cleanup := deleteRemoteContent env object bucketStatus.remoteName
        match cleanup.1 with
        | some e =>
            (some (getStatus object now AssetPhase.failed AssetReason.cleanupError [e]),
             some e,
             Effect.findBucket object.ns spec.bucketRefName ::
               cleanup.2 ++ [Effect.event "Warning" AssetReason.cleanupError])
        | none =>
          let loaded := env.loaderLoad spec.source.url object.name
            spec.source.mode spec.source.filter
          match loaded.2.2 with
          | some e =>
              (some (getStatus object now AssetPhase.failed
                  AssetReason.pullingFailed [e]),
               some e,
               Effect.findBucket object.ns spec.bucketRefName ::
                 cleanup.2 ++
                 [Effect.loaderLoad spec.source.url object.name
                    spec.source.mode spec.source.filter,
                  Effect.event "Warning" AssetReason.pullingFailed,
                  Effect.loaderClean loaded.1])
          | none =>
              let rest := onPendingAfterLoad env object spec now bucketStatus
                loaded.1 loaded.2.1
              (rest.1, rest.2.1,
               Effect.findBucket object.ns spec.bucketRefName ::
                 cleanup.2 ++
                 [Effect.loaderLoad spec.source.url object.name
                    spec.source.mode spec.source.filter,
                  Effect.event "Normal" AssetReason.pulled] ++
                 rest.2.2 ++ [Effect.loaderClean loaded.1])

/-- Do: the reconcile dispatch, evaluating the branch predicates in the Go
order (delete, add-or-update, ready, pending, retryable-failed, no action). -/
def Do (env : Env) (now : Nat) (inst : MetaAccessor) (spec : CommonAssetSpec)
    (status : CommonAssetStatus) :
    Option CommonAssetStatus × Option String × List Effect :=
  if isOnDelete inst then
    onDelete env inst spec
  else if isOnAddOrUpdate inst status then
    (some (getStatus inst now AssetPhase.pending AssetReason.scheduled []),
     none, [])
  else if isOnReady env status now then
    onReady env inst spec status now
  else if isOnPending env status now then
    onPending env inst spec status now
  else if isOnFailed status then
    onPending env inst spec status now
  else
    (none, none, [])

/-- Fixture: a ready bucket with remote name r1. -/
def bucketR1 : CommonBucketStatus := { remoteName := "r1", url := "http://cdn/r1" }

/-- Fixture: a live Asset instance at generation 1. -/
def instA1 : MetaAccessor :=
  { ns := "default", name := "a1", generation := 1, deletionTimestamp := none }

/-- Fixture: the same instance carrying a deletion timestamp. -/
def instA1Deleted : MetaAccessor := { instA1 with deletionTimestamp := some 7 }

/-- Fixture: a source with no webhooks configured. -/
def srcNoHooks : AssetSource :=
  { url := "http://x/a.zip", mode := "package", filter := ""
    mutationWebhookService := [], validationWebhookService := []
    metadataWebhookService := [] }

/-- Fixture: spec targeting bucket b1 with no webhooks. -/
def specA1 : CommonAssetSpec := { bucketRefName := "b1", source := srcNoHooks }

/-- Fixture: spec with all three webhooks configured. -/
def specA1Hooks : CommonAssetSpec :=
  { bucketRefName := "b1"
    source := { srcNoHooks with
      mutationWebhookService := ["http://m"]
      validationWebhookService := ["http://v"]
      metadataWebhookService := ["http://meta"] } }

/-- Fixture: a pending status already observed at generation 1. -/
def statusPendingA1 : CommonAssetStatus :=
  { lastHeartbeatTime := 0, observedGeneration := 1
    phase := AssetPhase.pending, reason := AssetReason.scheduled
    message := [], assetRef := { baseURL := "", files := [] } }

/-- Fixture: a ready status with two recorded files. -/
def statusReadyA1 : CommonAssetStatus :=
  { lastHeartbeatTime := 0, observedGeneration := 1
    phase := AssetPhase.ready, reason := AssetReason.uploaded
    message := []
    assetRef :=
      { baseURL := "http://cdn/r1/a1"
        files := [{ name := "a.md", metadata := none },
                  { name := "b.md", metadata := none }] } }

/-- Fixture: a sticky failed status (ValidationFailed). -/
def statusStickyA1 : CommonAssetStatus :=
  { statusPendingA1 with
    phase := AssetPhase.failed, reason := AssetReason.validationFailed }

/-- Fixture: pending blocked on BucketNotReady with heartbeat at 100. -/
def statusBucketNotReadyA1 : CommonAssetStatus :=
  { statusPendingA1 with
    reason := AssetReason.bucketNotReady, lastHeartbeatTime := 100 }

/-- Fixture: a status whose observed generation is stale (0 against 1). -/
def statusStaleA1 : CommonAssetStatus :=
  { statusPendingA1 with observedGeneration := 0 }

/-- Fixture environment where every collaborator succeeds. -/
def envHappy : Env :=
  { findBucketStatus := fun _ _ => Except.ok (bucketR1, true)
    listObjects := fun _ _ => Except.ok []
    deleteObjects := fun _ _ => Except.ok ()
    containsAllObjects := fun _ _ _ => Except.ok true
    putObjects := fun _ _ _ _ => Except.ok ()
    loaderLoad := fun _ _ _ _ => ("/tmp/w", ["a.md", "b.md"], none)
    mutate := fun _ _ _ => Except.ok { success := true, messages := "" }
    validate := fun _ _ _ => Except.ok { success := true, messages := "" }
    extract := fun _ _ _ => Except.ok []
    relistInterval := 10 }

/-- Fixture: the mutator fails with a transport error. -/
def envMutateErr : Env :=
  { envHappy with mutate := fun _ _ _ => Except.error "transport failure" }

/-- Fixture: the validator rejects the content. -/
def envValidateReject : Env :=
  { envHappy with
    validate := fun _ _ _ => Except.ok { success := false, messages := "bad" } }

/-- Fixture: the store reports missing content on re-verification. -/
def envContainsFalse : Env :=
  { envHappy with containsAllObjects := fun _ _ _ => Except.ok false }

/-- Fixture: the prefix lists non-empty and the bulk delete fails. -/
def envDeleteErr : Env :=
  { envHappy with
    listObjects := fun _ _ => Except.ok ["a1/a.md"]
    deleteObjects := fun _ _ => Except.error "boom" }

/-- Dispatch lemma: a live instance with an up-to-date generation and a
pending, non-backed-off status takes the OnPending branch. -/
theorem do_eq_onPending (env : Env) (now : Nat) (inst : MetaAccessor)
    (spec : CommonAssetSpec) (status : CommonAssetStatus)
    (hDel : inst.deletionTimestamp = none)
    (hGen : status.observedGeneration = inst.generation)
    (hPhase : status.phase = AssetPhase.pending)
    (hNB : ¬(status.reason = AssetReason.bucketNotReady ∧
      now < status.lastHeartbeatTime + env.relistInterval)) :
    Do env now inst spec status = onPending env inst spec status now := by
  have h1 : ¬ isOnDelete inst := by simp [isOnDelete, hDel]
  have h2 : ¬ isOnAddOrUpdate inst status := by simp [isOnAddOrUpdate, hGen]
  have h3 : ¬ isOnReady env status now := by simp [isOnReady, hPhase]
  have h4 : isOnPending env status now := ⟨hPhase, hNB⟩
  simp [Do, h1, h2, h3, h4]

/-- Dispatch lemma: a live instance with an up-to-date generation and a ready
status past the relist interval takes the OnReady branch. -/
theorem do_eq_onReady (env : Env) (now : Nat) (inst : MetaAccessor)
    (spec : CommonAssetSpec) (status : CommonAssetStatus)
    (hDel : inst.deletionTimestamp = none)
    (hGen : status.observedGeneration = inst.generation)
    (hPhase : status.phase = AssetPhase.ready)
    (hTime : status.lastHeartbeatTime + env.relistInterval < now) :
    Do env now inst spec status = onReady env inst spec status now := by
  have h1 : ¬ isOnDelete inst := by simp [isOnDelete, hDel]
  have h2 : ¬ isOnAddOrUpdate inst status := by simp [isOnAddOrUpdate, hGen]
  have h3 : isOnReady env status now := ⟨hPhase, hTime⟩
  simp [Do, h1, h2, h3]

/-- Dispatch lemma: a set deletion timestamp always takes the OnDelete
branch. -/
theorem do_eq_onDelete (env : Env) (now : Nat) (inst : MetaAccessor)
    (spec : CommonAssetSpec) (status : CommonAssetStatus)
    (hDel : inst.deletionTimestamp ≠ none) :
    Do env now inst spec status = onDelete env inst spec := by
  have h1 : isOnDelete inst := hDel
  simp [Do, h1]

/-- mergeMetadata keeps the file names and their order. -/
theorem mergeMetadata_names (files : List AssetFile)
    (metadatas : List AssethookFile) :
    (mergeMetadata files metadatas).map (fun f => f.name) =
      files.map (fun f => f.name) := by
  simp [mergeMetadata, List.map_map, Function.comp]

/-- populateFiles yields exactly the given names, in order. -/
theorem populateFiles_names (filenames : List String) :
    (populateFiles filenames).map (fun f => f.name) = filenames := by
  induction filenames with
  | nil => rfl
  | cons a l ih => simpa [populateFiles] using ih

/-- The metadata stage keeps the file names and their order. -/
theorem metadataStage_names (env : Env) (object : MetaAccessor)
    (spec : CommonAssetSpec) (basePath : String) (filenames : List String)
    (now : Nat) (files : List AssetFile) :
    ((metadataStage env object spec basePath filenames now files).2.1).map
        (fun f => f.name) =
      files.map (fun f => f.name) := by
  unfold metadataStage
  split
  · cases env.extract basePath filenames spec.source.metadataWebhookService with
    | error e => simp
    | ok result => simp [mergeMetadata_names]
  · simp

/-- Reduction lemma: when the bucket is ready, the remote cleanup succeeds
and the loader succeeds, the pending pipeline result and error are those of
the post-load stages. -/
theorem onPending_reach_load (env : Env) (inst : MetaAccessor)
    (spec : CommonAssetSpec) (status : CommonAssetStatus) (now : Nat)
    (bs : CommonBucketStatus) (basePath : String) (filenames : List String)
    (hFind : env.findBucketStatus inst.ns spec.bucketRefName =
      Except.ok (bs, true))
    (hClean : (deleteRemoteContent env inst bs.remoteName).1 = none)
    (hLoad : env.loaderLoad spec.source.url inst.name spec.source.mode
      spec.source.filter = (basePath, filenames, none)) :
    (onPending env inst spec status now).1 =
      (onPendingAfterLoad env inst spec now bs basePath filenames).1 ∧
    (onPending env inst spec status now).2.1 =
      (onPendingAfterLoad env inst spec now bs basePath filenames).2.1 := by
  unfold onPending
  rw [hFind]
  simp [hClean, hLoad]

/-- Reduction lemma: a failing bulk delete after a non-empty listing makes
deleteRemoteContent return the wrapped delete error. -/
theorem deleteRemoteContent_deleteError (env : Env) (o : MetaAccessor)
    (b : String) (fs : List String) (e : String)
    (hList : env.listObjects b o.name = Except.ok fs)
    (hNE : fs.length ≠ 0)
    (hDel : env.deleteObjects b o.name = Except.error e) :
    deleteRemoteContent env o b =
      (some (wrap "while deleting asset content" e),
       [Effect.listObjects b o.name, Effect.deleteObjects b o.name]) := by
  simp [deleteRemoteContent, hList, hNE, hDel]

/-- The remote cleanup never invokes the loader. -/
theorem deleteRemoteContent_no_load (env : Env) (o : MetaAccessor)
    (b u n m f : String) :
    Effect.loaderLoad u n m f ∉ (deleteRemoteContent env o b).2 := by
  simp only [deleteRemoteContent]
  split
  · simp
  · split
    · simp
    · split <;> simp

/-- The delete path never invokes the loader. -/
theorem onDelete_no_load (env : Env) (inst : MetaAccessor)
    (spec : CommonAssetSpec) (u n m f : String) :
    Effect.loaderLoad u n m f ∉ (onDelete env inst spec).2.2 := by
  unfold onDelete
  split
  · simp
  · split
    · simp
    · simp [List.mem_cons, deleteRemoteContent_no_load]

/-- The ready re-verification never invokes the loader. -/
theorem onReady_no_load (env : Env) (inst : MetaAccessor)
    (spec : CommonAssetSpec) (status : CommonAssetStatus) (now : Nat)
    (u n m f : String) :
    Effect.loaderLoad u n m f ∉ (onReady env inst spec status now).2.2 := by
  unfold onReady
  split
  · simp
  · split
    · simp
    · split
      · simp
      · split <;> simp

/-- Inside the pending pipeline, whenever the loader was invoked, the loaded
base path is cleaned before the pipeline returns. -/
theorem onPending_load_clean (env : Env) (inst : MetaAccessor)
    (spec : CommonAssetSpec) (status : CommonAssetStatus) (now : Nat)
    (u n m f : String)
    (h : Effect.loaderLoad u n m f ∈ (onPending env inst spec status now).2.2) :
    Effect.loaderClean
        (env.loaderLoad spec.source.url inst.name spec.source.mode
          spec.source.filter).1 ∈
      (onPending env inst spec status now).2.2 := by
  unfold onPending at h ⊢
  cases hF : env.findBucketStatus inst.ns spec.bucketRefName with
  | error e =>
      rw [hF] at h
      simp at h
  | ok pr =>
      obtain ⟨bs, rdy⟩ := pr
      rw [hF] at h
      cases rdy with
      | false => simp at h
      | true =>
          simp only [Bool.not_true, Bool.false_eq_true, if_false] at h ⊢
          cases hC : (deleteRemoteContent env inst bs.remoteName).1 with
          | some e =>
              rw [hC] at h
              simp [deleteRemoteContent_no_load] at h
          | none =>
              rw [hC] at h
              cases hLd : (env.loaderLoad spec.source.url inst.name
                  spec.source.mode spec.source.filter).2.2 with
              | some e =>
                  simp
              | none =>
                  simp

/-- C2: for an Asset whose status is Failed with a sticky reason
(ValidationFailed or MutationFailed), whose observed generation equals the
instance generation and whose deletion timestamp is unset, Do returns no
status and no error and performs no effect, at every call time now; since no
status is written back, repeated invocations with unchanged generation meet
the same hypotheses and keep returning (nil, nil) until generation changes. -/
theorem C2_sticky_failure_noop (env : Env) (now : Nat) (inst : MetaAccessor)
    (spec : CommonAssetSpec) (status : CommonAssetStatus)
    (hDel : inst.deletionTimestamp = none)
    (hGen : status.observedGeneration = inst.generation)
    (hPhase : status.phase = AssetPhase.failed)
    (hSticky : status.reason = AssetReason.validationFailed ∨
      status.reason = AssetReason.mutationFailed) :
    Do env now inst spec status = (none, none, []) := by
  have h1 : ¬ isOnDelete inst := by simp [isOnDelete, hDel]
  have h2 : ¬ isOnAddOrUpdate inst status := by simp [isOnAddOrUpdate, hGen]
  have h3 : ¬ isOnReady env status now := by simp [isOnReady, hPhase]
  have h4 : ¬ isOnPending env status now := by simp [isOnPending, hPhase]
  have h5 : ¬ isOnFailed status := by
    rcases hSticky with h | h <;> simp [isOnFailed, h]
  simp [Do, h1, h2, h3, h4, h5]

/-- Witness for C2 at a concrete sticky-failed Asset. -/
theorem C2_sticky_failure_noop_witness :
    Do envHappy 3 instA1 specA1 statusStickyA1 = (none, none, []) :=
  C2_sticky_failure_noop envHappy 3 instA1 specA1 statusStickyA1 rfl rfl rfl
    (Or.inl rfl)

/-- C3: when the deletion timestamp is unset and the observed generation
differs from the instance generation, Do returns a Pending Scheduled status
whose observedGeneration is the instance generation, a nil error, and an
empty effect trace, so no collaborator is invoked. -/
theorem C3_on_add_or_update (env : Env) (now : Nat) (inst : MetaAccessor)
    (spec : CommonAssetSpec) (status : CommonAssetStatus)
    (hDel : inst.deletionTimestamp = none)
    (hGen : status.observedGeneration ≠ inst.generation) :
    Do env now inst spec status =
      (some { lastHeartbeatTime := now, observedGeneration := inst.generation
              phase := AssetPhase.pending, reason := AssetReason.scheduled
              message := [], assetRef := { baseURL := "", files := [] } },
       none, []) := by
  have h1 : ¬ isOnDelete inst := by simp [isOnDelete, hDel]
  have h2 : isOnAddOrUpdate inst status := hGen
  simp [Do, h1, h2, getStatus]

/-- Witness for C3 at a concrete stale-generation Asset. -/
theorem C3_on_add_or_update_witness :
    Do envHappy 3 instA1 specA1 statusStaleA1 =
      (some { lastHeartbeatTime := 3, observedGeneration := 1
              phase := AssetPhase.pending, reason := AssetReason.scheduled
              message := [], assetRef := { baseURL := "", files := [] } },
       none, []) :=
  C3_on_add_or_update envHappy 3 instA1 specA1 statusStaleA1 rfl (by decide)

/-- C5: for a live, generation-current Asset pending on BucketNotReady, any
Do call strictly before lastHeartbeatTime plus relistInterval returns no
status, no error, and an empty trace (no collaborator invoked); any Do call
at or after that instant proceeds to run the pending pipeline. -/
theorem C5_bucket_not_ready_backoff (env : Env) (now : Nat)
    (inst : MetaAccessor) (spec : CommonAssetSpec) (status : CommonAssetStatus)
    (hDel : inst.deletionTimestamp = none)
    (hGen : status.observedGeneration = inst.generation)
    (hPhase : status.phase = AssetPhase.pending)
    (hReason : status.reason = AssetReason.bucketNotReady) :
    (now < status.lastHeartbeatTime + env.relistInterval →
       Do env now inst spec status = (none, none, [])) ∧
    (status.lastHeartbeatTime + env.relistInterval ≤ now →
       Do env now inst spec status = onPending env inst spec status now) := by
  constructor
  · intro hLt
    have h1 : ¬ isOnDelete inst := by simp [isOnDelete, hDel]
    have h2 : ¬ isOnAddOrUpdate inst status := by simp [isOnAddOrUpdate, hGen]
    have h3 : ¬ isOnReady env status now := by simp [isOnReady, hPhase]
    have h4 : ¬ isOnPending env status now := fun hp => hp.2 ⟨hReason, hLt⟩
    have h5 : ¬ isOnFailed status := by simp [isOnFailed, hPhase]
    simp [Do, h1, h2, h3, h4, h5]
  · intro hGe
    exact do_eq_onPending env now inst spec status hDel hGen hPhase
      (fun hc => absurd hc.2 (by omega))

/-- Witness for C5: blocked at now 105, proceeding at now 200. -/
theorem C5_bucket_not_ready_backoff_witness :
    Do envHappy 105 instA1 specA1 statusBucketNotReadyA1 = (none, none, []) ∧
    Do envHappy 200 instA1 specA1 statusBucketNotReadyA1 =
      onPending envHappy instA1 specA1 statusBucketNotReadyA1 200 :=
  ⟨(C5_bucket_not_ready_backoff envHappy 105 instA1 specA1
      statusBucketNotReadyA1 rfl rfl rfl rfl).1 (by decide),
   (C5_bucket_not_ready_backoff envHappy 200 instA1 specA1
      statusBucketNotReadyA1 rfl rfl rfl rfl).2 (by decide)⟩

/-- C7: on every reconcile whose effect trace shows a Loader.Load invocation
(which only the pending pipeline performs), the trace also shows a
Loader.Clean on the loaded base path, on every exit path: load error,
mutation, validation or metadata failure, upload failure, and success. -/
theorem C7_load_always_cleaned (env : Env) (now : Nat) (inst : MetaAccessor)
    (spec : CommonAssetSpec) (status : CommonAssetStatus) (u n m f : String)
    (h : Effect.loaderLoad u n m f ∈ (Do env now inst spec status).2.2) :
    Effect.loaderClean
        (env.loaderLoad spec.source.url inst.name spec.source.mode
          spec.source.filter).1 ∈
      (Do env now inst spec status).2.2 := by
  unfold Do at h ⊢
  by_cases h1 : isOnDelete inst
  · rw [if_pos h1] at h ⊢
    exact absurd h (onDelete_no_load env inst spec u n m f)
  · rw [if_neg h1] at h ⊢
    by_cases h2 : isOnAddOrUpdate inst status
    · rw [if_pos h2] at h ⊢
      simp at h
    · rw [if_neg h2] at h ⊢
      by_cases h3 : isOnReady env status now
      · rw [if_pos h3] at h ⊢
        exact absurd h (onReady_no_load env inst spec status now u n m f)
      · rw [if_neg h3] at h ⊢
        by_cases h4 : isOnPending env status now
        · rw [if_pos h4] at h ⊢
          exact onPending_load_clean env inst spec status now u n m f h
        · rw [if_neg h4] at h ⊢
          by_cases h5 : isOnFailed status
          · rw [if_pos h5] at h ⊢
            exact onPending_load_clean env inst spec status now u n m f h
          · rw [if_neg h5] at h ⊢
            simp at h

/-- Witness for C7 on a successful happy-path pipeline run. -/
theorem C7_load_always_cleaned_witness :
    Effect.loaderLoad "http://x/a.zip" "a1" "package" "" ∈
      (Do envHappy 5 instA1 specA1 statusPendingA1).2.2 ∧
    Effect.loaderClean "/tmp/w" ∈
      (Do envHappy 5 instA1 specA1 statusPendingA1).2.2 :=
  ⟨by decide,
   C7_load_always_cleaned envHappy 5 instA1 specA1 statusPendingA1
     "http://x/a.zip" "a1" "package" "" (by decide)⟩

/-- C6: in Ready re-verification (live instance, current generation, phase
Ready, now strictly after lastHeartbeatTime plus relistInterval), when the
bucket probe reports ready and ContainsAllObjects returns true for the names
recorded in status.assetRef.files, Do returns a Ready status whose assetRef
(baseURL and files) is identical to the input status, with only
lastHeartbeatTime refreshed to now, reason Uploaded, and a nil error. -/
theorem C6_ready_reverify_frame (env : Env) (now : Nat) (inst : MetaAccessor)
    (spec : CommonAssetSpec) (status : CommonAssetStatus)
    (bs : CommonBucketStatus)
    (hDel : inst.deletionTimestamp = none)
    (hGen : status.observedGeneration = inst.generation)
    (hPhase : status.phase = AssetPhase.ready)
    (hTime : status.lastHeartbeatTime + env.relistInterval < now)
    (hFind : env.findBucketStatus inst.ns spec.bucketRefName =
      Except.ok (bs, true))
    (hContains : env.containsAllObjects bs.remoteName inst.name
      (extractNames status.assetRef.files) = Except.ok true) :
    Do env now inst spec status =
      (some { lastHeartbeatTime := now, observedGeneration := inst.generation
              phase := AssetPhase.ready, reason := AssetReason.uploaded
              message := [], assetRef := status.assetRef },
       none,
       [Effect.findBucket inst.ns spec.bucketRefName,
        Effect.containsAllObjects bs.remoteName inst.name
          (extractNames status.assetRef.files)]) := by
  rw [do_eq_onReady env now inst spec status hDel hGen hPhase hTime]
  unfold onReady
  rw [hFind]
  simp [hContains, getReadyStatus, getStatus]

/-- Witness for C6 at a concrete Ready Asset past the relist interval. -/
theorem C6_ready_reverify_frame_witness :
    Do envHappy 11 instA1 specA1 statusReadyA1 =
      (some { lastHeartbeatTime := 11, observedGeneration := 1
              phase := AssetPhase.ready, reason := AssetReason.uploaded
              message := [], assetRef := statusReadyA1.assetRef },
       none,
       [Effect.findBucket instA1.ns specA1.bucketRefName,
        Effect.containsAllObjects bucketR1.remoteName instA1.name
          (extractNames statusReadyA1.assetRef.files)]) :=
  C6_ready_reverify_frame envHappy 11 instA1 specA1 statusReadyA1 bucketR1
    rfl rfl rfl (by decide) rfl rfl

/-- C10: in Ready re-verification, a ready bucket with ContainsAllObjects
returning false and a nil error makes Do return Failed MissingContent paired
with a nil error, and that status satisfies the retryable OnFailed predicate,
so recovery happens through the OnFailed branch at the next reconcile; by
contrast, a store error or bucket probe error in the same branch makes Do
return the non-nil error. -/
theorem C10_missing_content_nil_error (env : Env) (now : Nat)
    (inst : MetaAccessor) (spec : CommonAssetSpec) (status : CommonAssetStatus)
    (hDel : inst.deletionTimestamp = none)
    (hGen : status.observedGeneration = inst.generation)
    (hPhase : status.phase = AssetPhase.ready)
    (hTime : status.lastHeartbeatTime + env.relistInterval < now) :
    (∀ bs : CommonBucketStatus,
       env.findBucketStatus inst.ns spec.bucketRefName = Except.ok (bs, true) →
       env.containsAllObjects bs.remoteName inst.name
         (extractNames status.assetRef.files) = Except.ok false →
       (Do env now inst spec status).1 =
         some (getStatus inst now AssetPhase.failed AssetReason.missingContent []) ∧
       (Do env now inst spec status).2.1 = none ∧
       isOnFailed (getStatus inst now AssetPhase.failed AssetReason.missingContent [])) ∧
    (∀ (bs : CommonBucketStatus) (e : String),
       env.findBucketStatus inst.ns spec.bucketRefName = Except.ok (bs, true) →
       env.containsAllObjects bs.remoteName inst.name
         (extractNames status.assetRef.files) = Except.error e →
       (Do env now inst spec status).2.1 = some e) ∧
    (∀ e : String,
       env.findBucketStatus inst.ns spec.bucketRefName = Except.error e →
       (Do env now inst spec status).2.1 = some e) := by
  have hdo := do_eq_onReady env now inst spec status hDel hGen hPhase hTime
  refine ⟨?_, ?_, ?_⟩
  · intro bs hFind hContains
    rw [hdo]
    unfold onReady
    rw [hFind]
    simp [hContains, isOnFailed, getStatus]
  · intro bs e hFind hContains
    rw [hdo]
    unfold onReady
    rw [hFind]
    simp [hContains]
  · intro e hFind
    rw [hdo]
    unfold onReady
    rw [hFind]

/-- Witness for C10 with a store that reports the content missing. -/
theorem C10_missing_content_nil_error_witness :
    (Do envContainsFalse 11 instA1 specA1 statusReadyA1).1 =
      some (getStatus instA1 11 AssetPhase.failed AssetReason.missingContent []) ∧
    (Do envContainsFalse 11 instA1 specA1 statusReadyA1).2.1 = none ∧
    isOnFailed (getStatus instA1 11 AssetPhase.failed AssetReason.missingContent []) :=
  (C10_missing_content_nil_error envContainsFalse 11 instA1 specA1
      statusReadyA1 rfl rfl rfl (by decide)).1 bucketR1 rfl rfl

/-- C1: on a live, generation-current, pending (not backed-off) Asset, when
the bucket probe reports ready, the remote cleanup succeeds, the loader
succeeds, the optional mutation, validation and metadata stages pass, and
PutObjects succeeds, Do returns a Ready status with reason Uploaded, with
assetRef.baseURL equal to the bucket url concatenated with a slash and the
asset name, with assetRef.files holding exactly one entry per loader
filename in the same order, together with a nil error. -/
theorem C1_happy_pipeline (env : Env) (now : Nat) (inst : MetaAccessor)
    (spec : CommonAssetSpec) (status : CommonAssetStatus)
    (bs : CommonBucketStatus) (basePath : String) (filenames : List String)
    (hDel : inst.deletionTimestamp = none)
    (hGen : status.observedGeneration = inst.generation)
    (hPhase : status.phase = AssetPhase.pending)
    (hNB : ¬(status.reason = AssetReason.bucketNotReady ∧
      now < status.lastHeartbeatTime + env.relistInterval))
    (hFind : env.findBucketStatus inst.ns spec.bucketRefName =
      Except.ok (bs, true))
    (hClean : (deleteRemoteContent env inst bs.remoteName).1 = none)
    (hLoad : env.loaderLoad spec.source.url inst.name spec.source.mode
      spec.source.filter = (basePath, filenames, none))
    (hMut : (mutationStage env inst spec basePath filenames now).1 = none)
    (hVal : (validationStage env inst spec basePath filenames now).1 = none)
    (hMeta : (metadataStage env inst spec basePath filenames now
      (populateFiles filenames)).1 = none)
    (hPut : env.putObjects bs.remoteName inst.name basePath filenames =
      Except.ok ()) :
    ∃ st, (Do env now inst spec status).1 = some st ∧
      (Do env now inst spec status).2.1 = none ∧
      st.phase = AssetPhase.ready ∧
      st.reason = AssetReason.uploaded ∧
      st.assetRef.baseURL = bs.url ++ "/" ++ inst.name ∧
      st.assetRef.files.map (fun file => file.name) = filenames := by
  have hdo := do_eq_onPending env now inst spec status hDel hGen hPhase hNB
  have hreach := onPending_reach_load env inst spec status now bs basePath
    filenames hFind hClean hLoad
  have h1 : (onPendingAfterLoad env inst spec now bs basePath filenames).1 =
      some (getReadyStatus inst now (getBaseUrl bs.url inst.name)
        (metadataStage env inst spec basePath filenames now
          (populateFiles filenames)).2.1 AssetReason.uploaded []) := by
    unfold onPendingAfterLoad
    simp [hMut, hVal, hMeta, hPut]
  have h2 : (onPendingAfterLoad env inst spec now bs basePath filenames).2.1 =
      none := by
    unfold onPendingAfterLoad
    simp [hMut, hVal, hMeta, hPut]
  refine ⟨getReadyStatus inst now (getBaseUrl bs.url inst.name)
    (metadataStage env inst spec basePath filenames now
      (populateFiles filenames)).2.1 AssetReason.uploaded [],
    ?_, ?_, ?_, ?_, ?_, ?_⟩
  · rw [hdo, hreach.1, h1]
  · rw [hdo, hreach.2, h2]
  · simp [getReadyStatus, getStatus]
  · simp [getReadyStatus, getStatus]
  · simp [getReadyStatus, getBaseUrl]
  · simp only [getReadyStatus]
    rw [metadataStage_names, populateFiles_names]

/-- Witness for C1 with all webhooks configured and every stage passing. -/
theorem C1_happy_pipeline_witness :
    ∃ st, (Do envHappy 5 instA1 specA1Hooks statusPendingA1).1 = some st ∧
      (Do envHappy 5 instA1 specA1Hooks statusPendingA1).2.1 = none ∧
      st.phase = AssetPhase.ready ∧
      st.reason = AssetReason.uploaded ∧
      st.assetRef.baseURL = bucketR1.url ++ "/" ++ instA1.name ∧
      st.assetRef.files.map (fun file => file.name) = ["a.md", "b.md"] :=
  C1_happy_pipeline envHappy 5 instA1 specA1Hooks statusPendingA1 bucketR1
    "/tmp/w" ["a.md", "b.md"] rfl rfl rfl (by decide) rfl rfl rfl rfl rfl rfl
    rfl

/-- C4: with the pending pipeline reaching the webhook stages (bucket ready,
cleanup and load succeeded), a mutator transport error yields a Failed status
with reason MutationError and a non-nil error; a mutator result with success
false yields Failed MutationFailed and a nil error; and, when the mutation
stage passes, the same two-level outcome holds for the validator with
ValidationError (non-nil error) and ValidationFailed (nil error). -/
theorem C4_webhook_two_level_failures (env : Env) (now : Nat)
    (inst : MetaAccessor) (spec : CommonAssetSpec) (status : CommonAssetStatus)
    (bs : CommonBucketStatus) (basePath : String) (filenames : List String)
    (hDel : inst.deletionTimestamp = none)
    (hGen : status.observedGeneration = inst.generation)
    (hPhase : status.phase = AssetPhase.pending)
    (hNB : ¬(status.reason = AssetReason.bucketNotReady ∧
      now < status.lastHeartbeatTime + env.relistInterval))
    (hFind : env.findBucketStatus inst.ns spec.bucketRefName =
      Except.ok (bs, true))
    (hClean : (deleteRemoteContent env inst bs.remoteName).1 = none)
    (hLoad : env.loaderLoad spec.source.url inst.name spec.source.mode
      spec.source.filter = (basePath, filenames, none)) :
    (∀ e, 0 < spec.source.mutationWebhookService.length →
       env.mutate basePath filenames spec.source.mutationWebhookService =
         Except.error e →
       (Do env now inst spec status).1 = some (getStatus inst now
         AssetPhase.failed AssetReason.mutationError [e]) ∧
       (Do env now inst spec status).2.1 = some e) ∧
    (∀ msgs, 0 < spec.source.mutationWebhookService.length →
       env.mutate basePath filenames spec.source.mutationWebhookService =
         Except.ok { success := false, messages := msgs } →
       (Do env now inst spec status).1 = some (getStatus inst now
         AssetPhase.failed AssetReason.mutationFailed [msgs]) ∧
       (Do env now inst spec status).2.1 = none) ∧
    (∀ e, (mutationStage env inst spec basePath filenames now).1 = none →
       0 < spec.source.validationWebhookService.length →
       env.validate basePath filenames spec.source.validationWebhookService =
         Except.error e →
       (Do env now inst spec status).1 = some (getStatus inst now
         AssetPhase.failed AssetReason.validationError [e]) ∧
       (Do env now inst spec status).2.1 = some e) ∧
    (∀ msgs, (mutationStage env inst spec basePath filenames now).1 = none →
       0 < spec.source.validationWebhookService.length →
       env.validate basePath filenames spec.source.validationWebhookService =
         Except.ok { success := false, messages := msgs } →
       (Do env now inst spec status).1 = some (getStatus inst now
         AssetPhase.failed AssetReason.validationFailed [msgs]) ∧
       (Do env now inst spec status).2.1 = none) := by
  have hdo := do_eq_onPending env now inst spec status hDel hGen hPhase hNB
  have hreach := onPending_reach_load env inst spec status now bs basePath
    filenames hFind hClean hLoad
  refine ⟨?_, ?_, ?_, ?_⟩
  · intro e hlen hm
    have hstage : (mutationStage env inst spec basePath filenames now).1 =
        some (getStatus inst now AssetPhase.failed AssetReason.mutationError [e],
          some e) := by
      unfold mutationStage
      simp [hlen, hm]
    constructor
    · rw [hdo, hreach.1]
      unfold onPendingAfterLoad
      simp [hstage]
    · rw [hdo, hreach.2]
      unfold onPendingAfterLoad
      simp [hstage]
  · intro msgs hlen hm
    have hstage : (mutationStage env inst spec basePath filenames now).1 =
        some (getStatus inst now AssetPhase.failed AssetReason.mutationFailed
          [msgs], none) := by
      unfold mutationStage
      simp [hlen, hm]
    constructor
    · rw [hdo, hreach.1]
      unfold onPendingAfterLoad
      simp [hstage]
    · rw [hdo, hreach.2]
      unfold onPendingAfterLoad
      simp [hstage]
  · intro e hmpass hlen hv
    have hstage : (validationStage env inst spec basePath filenames now).1 =
        some (getStatus inst now AssetPhase.failed AssetReason.validationError [e],
          some e) := by
      unfold validationStage
      simp [hlen, hv]
    constructor
    · rw [hdo, hreach.1]
      unfold onPendingAfterLoad
      simp [hmpass, hstage]
    · rw [hdo, hreach.2]
      unfold onPendingAfterLoad
      simp [hmpass, hstage]
  · intro msgs hmpass hlen hv
    have hstage : (validationStage env inst spec basePath filenames now).1 =
        some (getStatus inst now AssetPhase.failed AssetReason.validationFailed
          [msgs], none) := by
      unfold validationStage
      simp [hlen, hv]
    constructor
    · rw [hdo, hreach.1]
      unfold onPendingAfterLoad
      simp [hmpass, hstage]
    · rw [hdo, hreach.2]
      unfold onPendingAfterLoad
      simp [hmpass, hstage]

/-- Witness for C4: a mutator transport error and, separately, a validator
rejection, each at a concrete input. -/
theorem C4_webhook_two_level_failures_witness :
    ((Do envMutateErr 5 instA1 specA1Hooks statusPendingA1).1 =
       some (getStatus instA1 5 AssetPhase.failed AssetReason.mutationError
         ["transport failure"]) ∧
     (Do envMutateErr 5 instA1 specA1Hooks statusPendingA1).2.1 =
       some "transport failure") ∧
    ((Do envValidateReject 5 instA1 specA1Hooks statusPendingA1).1 =
       some (getStatus instA1 5 AssetPhase.failed AssetReason.validationFailed
         ["bad"]) ∧
     (Do envValidateReject 5 instA1 specA1Hooks statusPendingA1).2.1 = none) :=
  ⟨(C4_webhook_two_level_failures envMutateErr 5 instA1 specA1Hooks
      statusPendingA1 bucketR1 "/tmp/w" ["a.md", "b.md"] rfl rfl rfl
      (by decide) rfl rfl rfl).1 "transport failure" (by decide) rfl,
   (C4_webhook_two_level_failures envValidateReject 5 instA1 specA1Hooks
      statusPendingA1 bucketR1 "/tmp/w" ["a.md", "b.md"] rfl rfl rfl
      (by decide) rfl rfl rfl).2.2.2 "bad" rfl (by decide) rfl⟩

/-- C8: evaluation of the code at the failing input. On a mutator transport
error the handler writes status reason MutationError but records the Warning
event with reason MutationFailed, so the event reason does not match the
status reason; every sentence of the claim except this mutator transport
case holds (the validation stage, for instance, records ValidationError on a
transport error, matching its status reason). -/
theorem C8_mutator_transport_event_mismatch :
    (Do envMutateErr 5 instA1 specA1Hooks statusPendingA1).1 =
      some (getStatus instA1 5 AssetPhase.failed AssetReason.mutationError
        ["transport failure"]) ∧
    Effect.event "Warning" AssetReason.mutationFailed ∈
      (Do envMutateErr 5 instA1 specA1Hooks statusPendingA1).2.2 ∧
    Effect.event "Warning" AssetReason.mutationError ∉
      (Do envMutateErr 5 instA1 specA1Hooks statusPendingA1).2.2 := by
  refine ⟨by decide, by decide, by decide⟩

/-- C9 counterexample: in the OnDelete path a failing bulk delete after a
non-empty listing is not surfaced as CleanupError: Do returns no status at
all (hence no Failed CleanupError status) and records no CleanupError event,
returning only the wrapped delete error. -/
theorem C9_onDelete_no_cleanup_error_status :
    (Do envDeleteErr 5 instA1Deleted specA1 statusPendingA1).1 = none ∧
    (Do envDeleteErr 5 instA1Deleted specA1 statusPendingA1).2.1 =
      some (wrap "while deleting asset content" "boom") ∧
    Effect.event "Warning" AssetReason.cleanupError ∉
      (Do envDeleteErr 5 instA1Deleted specA1 statusPendingA1).2.2 ∧
    Effect.event "Normal" AssetReason.cleanupError ∉
      (Do envDeleteErr 5 instA1Deleted specA1 statusPendingA1).2.2 := by
  refine ⟨by decide, by decide, by decide, by decide⟩

/-- C9 (amended): whenever listing the Asset prefix succeeds non-empty and
the bulk DeleteObjects call fails, the pending pipeline surfaces the failure
as a returned status with phase Failed and reason CleanupError plus the
non-nil wrapped error; in the OnDelete path Do returns no status and only
the wrapped delete error, recording no CleanupError reason. -/
theorem C9_cleanup_error_surfacing (env : Env) (spec : CommonAssetSpec)
    (bs : CommonBucketStatus) (fs : List String) (e : String) :
    (∀ (inst : MetaAccessor) (status : CommonAssetStatus) (now : Nat),
       inst.deletionTimestamp = none →
       status.observedGeneration = inst.generation →
       status.phase = AssetPhase.pending →
       ¬(status.reason = AssetReason.bucketNotReady ∧
         now < status.lastHeartbeatTime + env.relistInterval) →
       env.findBucketStatus inst.ns spec.bucketRefName = Except.ok (bs, true) →
       env.listObjects bs.remoteName inst.name = Except.ok fs →
       fs.length ≠ 0 →
       env.deleteObjects bs.remoteName inst.name = Except.error e →
       (Do env now inst spec status).1 =
         some (getStatus inst now AssetPhase.failed AssetReason.cleanupError
           [wrap "while deleting asset content" e]) ∧
       (Do env now inst spec status).2.1 =
         some (wrap "while deleting asset content" e)) ∧
    (∀ (inst : MetaAccessor) (status : CommonAssetStatus) (now : Nat),
       inst.deletionTimestamp ≠ none →
       env.findBucketStatus inst.ns spec.bucketRefName = Except.ok (bs, true) →
       env.listObjects bs.remoteName inst.name = Except.ok fs →
       fs.length ≠ 0 →
       env.deleteObjects bs.remoteName inst.name = Except.error e →
       Do env now inst spec status =
         (none, some (wrap "while deleting asset content" e),
          [Effect.findBucket inst.ns spec.bucketRefName,
           Effect.listObjects bs.remoteName inst.name,
           Effect.deleteObjects bs.remoteName inst.name])) := by
  constructor
  · intro inst status now hDel hGen hPhase hNB hFind hList hNE hDelObj
    have hdrc := deleteRemoteContent_deleteError env inst bs.remoteName fs e
      hList hNE hDelObj
    rw [do_eq_onPending env now inst spec status hDel hGen hPhase hNB]
    unfold onPending
    rw [hFind]
    simp [hdrc]
  · intro inst status now hDel hFind hList hNE hDelObj
    have hdrc := deleteRemoteContent_deleteError env inst bs.remoteName fs e
      hList hNE hDelObj
    rw [do_eq_onDelete env now inst spec status hDel]
    unfold onDelete
    rw [hFind]
    simp [hdrc]

/-- Witness for the amended C9 on both paths at concrete inputs. -/
theorem C9_cleanup_error_surfacing_witness :
    ((Do envDeleteErr 5 instA1 specA1 statusPendingA1).1 =
       some (getStatus instA1 5 AssetPhase.failed AssetReason.cleanupError
         [wrap "while deleting asset content" "boom"]) ∧
     (Do envDeleteErr 5 instA1 specA1 statusPendingA1).2.1 =
       some (wrap "while deleting asset content" "boom")) ∧
    Do envDeleteErr 5 instA1Deleted specA1 statusPendingA1 =
      (none, some (wrap "while deleting asset content" "boom"),
       [Effect.findBucket instA1Deleted.ns specA1.bucketRefName,
        Effect.listObjects bucketR1.remoteName instA1Deleted.name,
        Effect.deleteObjects bucketR1.remoteName instA1Deleted.name]) :=
  ⟨(C9_cleanup_error_surfacing envDeleteErr specA1 bucketR1 ["a1/a.md"]
      "boom").1 instA1 statusPendingA1 5 rfl rfl rfl (by decide) rfl rfl
      (by decide) rfl,
   (C9_cleanup_error_surfacing envDeleteErr specA1 bucketR1 ["a1/a.md"]
      "boom").2 instA1Deleted statusPendingA1 5 (by decide) rfl rfl
      (by decide) rfl⟩

end Rafter
